import Mathlib

/-!
Verification of the metric-evaluation and aggregation engine of the
Phase2_CSCI461 model-registry repository.

The definitions below are a shallow embedding of the Python sources under
`src/CSCI461/src/registry/` (the tree that `registry.scorer` and the
run entry points actually load; the cited claim locations all point there).
Python floats are modelled as exact rationals (ℚ), except for the
`dataset_quality` metric whose `math.log1p` forces an exact-real (ℝ) model.
Wall-clock latencies are nondeterministic at the Python level; they are
modelled as the constant 0 milliseconds, which does not affect any claim
about scores, field names, shapes or control flow.
-/

namespace Spec2Proof

/-! ## String helpers (models of Python `str` operations, ASCII inputs) -/

/-- Model of Python's `pat in s` substring test, on explicit char lists. -/
def subOccurs (pat : List Char) : List Char → Bool :=
  fun hay => hay.tails.any (fun t => pat.isPrefixOf t)

/-- Model of Python's `pat in s` for strings. -/
def strContains (hay pat : String) : Bool :=
  subOccurs pat.data hay.data

/-- Model of Python's `str.lower()` (ASCII range, as in the repository's data). -/
def lowerStr (s : String) : String :=
  ⟨s.data.map Char.toLower⟩

/-- Helper for `wordCount`: counts maximal runs of non-whitespace characters.
The boolean flag records whether the previous character was inside a word. -/
def countWordRuns : List Char → Bool → Nat
  | [], _ => 0
  | c :: rest, inWord =>
    if c.isWhitespace then countWordRuns rest false
    else (if inWord then 0 else 1) + countWordRuns rest true

/-- Model of Python's `len(s.split())`: number of whitespace-separated words. -/
def wordCount (s : String) : Nat :=
  countWordRuns s.data false

/-! ## Context

`src/CSCI461/src/registry/scorer.py` hands each metric one flat `repo_info`
dictionary; every key is optional (`dict.get` with a default).  The keys the
eight metrics read are modelled as optional typed fields. -/

/-- The metric-input context (`repo_info` in `scorer.py`): a flat mapping with
optional keys, one field per key actually read by a metric. -/
structure Ctx where
  hf_readme : Option String := none
  license_field : Option String := none
  git_contributors : Option Int := none
  weights_total_bytes : Option Int := none
  dataset_link : Option String := none
  example_code_present : Option Bool := none
  dataset_downloads : Option Int := none
  has_tests : Option Bool := none
  has_ci : Option Bool := none
  lint_ok : Option Bool := none
  lint_warn : Option Bool := none

/-- The empty context `{}` (every key absent). -/
def emptyCtx : Ctx := {}

/-! ## The eight metric scoring rules
(`src/CSCI461/src/registry/metrics/*.py`, the tree the scorer imports). -/

/-- Embeds `RampUpTimeMetric.compute` (ramp_up_time.py): 0.5 · min(1, words/300)
+ 0.5 · [readme mentions "example" or "quickstart"]. -/
def rampUpTimeScore (ctx : Ctx) : ℚ :=
  let readme := ctx.hf_readme.getD ""
  let lower := lowerStr readme
  let examples : ℚ :=
    if strContains lower "example" || strContains lower "quickstart" then 1 else 0
  let lengthScore : ℚ := min 1 ((wordCount readme : ℚ) / 300)
  1/2 * lengthScore + 1/2 * examples

/-- Embeds `BusFactorMetric.compute` (bus_factor.py): contributors default 1;
0.1 when ≤ 1, else min(1, contributors/5). -/
def busFactorScore (ctx : Ctx) : ℚ :=
  let contributors := ctx.git_contributors.getD 1
  if contributors ≤ 1 then 1/10
  else min 1 ((contributors : ℚ) / 5)

/-- Embeds `PerformanceClaimsMetric.compute` (performance_claims.py): 1.0 when the
lowercased README contains "benchmark", "accuracy" or "eval", else 0.0. -/
def performanceClaimsScore (ctx : Ctx) : ℚ :=
  let readmeLower := lowerStr (ctx.hf_readme.getD "")
  if strContains readmeLower "benchmark" || strContains readmeLower "accuracy"
      || strContains readmeLower "eval" then 1 else 0

/-- Embeds `LicenseMetric.compute` (license_metric.py): 1.0 for a permissive license
substring, 0.5 for a bare "license" mention in the README, 0.2 for any other
non-empty license, 0.0 otherwise. -/
def licenseScore (ctx : Ctx) : ℚ :=
  let lic := match ctx.license_field with
    | none => ""
    | some s => if s = "" then "" else lowerStr s
  if lic = "" then
    let readme := lowerStr (ctx.hf_readme.getD "")
    if strContains readme "license" then 1/2 else 0
  else if strContains lic "lgpl" || strContains lic "mit"
      || strContains lic "apache" || strContains lic "bsd" then 1
  else 1/5

/-- The four hardware-tier names, in the order size_score.py builds them. -/
def tierNames : List String :=
  ["raspberry_pi", "jetson_nano", "desktop_pc", "aws_server"]

/-- Byte thresholds of size_score.py, keyed by tier, in construction order. -/
def sizeThresholds : List (String × Int) :=
  [("raspberry_pi", 50 * 1024 * 1024),
   ("jetson_nano", 700 * 1024 * 1024),
   ("desktop_pc", 8 * 1024 * 1024 * 1024),
   ("aws_server", 100 * 1024 * 1024 * 1024)]

/-- The mapping size_score.py returns when `weights_total_bytes` is absent. -/
def defaultSizeMap : List (String × ℚ) :=
  [("raspberry_pi", 0), ("jetson_nano", 0), ("desktop_pc", 1), ("aws_server", 1)]

/-- Embeds `SizeScoreMetric.compute` (size_score.py): per tier, 1.0 at or below the
threshold, else `min(1, max(0, 1 - (total - thresh)/(thresh*10)))`; a fixed
default mapping when the size is unknown. -/
def sizeScoreMap (ctx : Ctx) : List (String × ℚ) :=
  match ctx.weights_total_bytes with
  | none => defaultSizeMap
  | some total =>
    sizeThresholds.map fun p =>
      (p.1,
        if total ≤ p.2 then 1
        else min 1 (max 0 (1 - ((total : ℚ) - (p.2 : ℚ)) / ((p.2 : ℚ) * 10))))

/-- Embeds `DatasetAndCodeScoreMetric.compute` (dataset_and_code_score.py):
1.0 when both the dataset link and the example-code flag are truthy,
0.5 when exactly one is, 0.0 otherwise. -/
def datasetAndCodeScore (ctx : Ctx) : ℚ :=
  let hasDataset := !(ctx.dataset_link.getD "" == "")
  let hasExampleCode := ctx.example_code_present.getD false
  if hasDataset && hasExampleCode then 1
  else if hasDataset || hasExampleCode then 1/2
  else 0

/-- Embeds `DatasetQualityMetric.compute` (dataset_quality.py): 0.2 when downloads
≤ 0, else `min(1, log1p(downloads)/10)`, then clamped to [0,1].  Python's
`math.log1p` is modelled by the exact real logarithm. -/
noncomputable def datasetQualityScore (ctx : Ctx) : ℝ :=
  let downloads := ctx.dataset_downloads.getD 0
  let score : ℝ :=
    if downloads ≤ 0 then 1/5
    else min 1 (Real.log (1 + (downloads : ℝ)) / 10)
  max 0 (min 1 score)

/-- Embeds `CodeQualityMetric.compute` (code_quality.py): min(1, 0.4·has_tests
+ 0.3·has_ci + 0.3·lint) with lint 1.0 / 0.5 / 0.0. -/
def codeQualityScore (ctx : Ctx) : ℚ :=
  let hasTests : ℚ := if ctx.has_tests.getD false then 1 else 0
  let hasCi : ℚ := if ctx.has_ci.getD false then 1 else 0
  let lintScore : ℚ :=
    if ctx.lint_ok.getD false then 1
    else if ctx.lint_warn.getD false then 1/2 else 0
  min 1 (2/5 * hasTests + 3/10 * hasCi + 3/10 * lintScore)

/-! ## Metric-result values and the aggregator
(`_compute_net_score` in `src/CSCI461/src/registry/scorer.py`). -/

/-- A value stored in the `metric_results` dictionary: either a float or the
hardware-tier mapping (`size_score`). -/
inductive MVal (α : Type) where
  | num (x : α)
  | dict (entries : List (String × α))
  deriving DecidableEq

/-- The `metric_results` dictionary: metric name to stored value. -/
abbrev MetricResults (α : Type) : Type := List (String × MVal α)

/-- The key set of a stored value (empty for a scalar). -/
def mvalKeys {α : Type} : MVal α → List String
  | .num _ => []
  | .dict l => l.map Prod.fst

/-- The fixed Phase-1 weight vector of `_compute_net_score`, in the
insertion order of the `weights` dictionary. -/
def netWeights : List (String × ℚ) :=
  [("ramp_up_time", 2/10),
   ("license", 2/10),
   ("dataset_and_code_score", 15/100),
   ("size_score", 1/10),
   ("bus_factor", 1/10),
   ("dataset_quality", 1/10),
   ("code_quality", 1/10),
   ("performance_claims", 5/100)]

/-- Embeds `get_metric_value` inside `_compute_net_score`: for `size_score`, the mean
of the tier values when a non-empty mapping is stored, else the default 1.0;
for every other key, the stored float (0.0 when absent).  `none` models the
`TypeError` Python's `float(...)` raises on a mapping, which the surrounding
`try` of `_compute_net_score` turns into a degraded net score. -/
def getMetricValue (results : MetricResults ℚ) (key : String) : Option ℚ :=
  if key = "size_score" then
    match List.lookup "size_score" results with
    | some (.dict l) =>
      if l = [] then some 1 else some ((l.map Prod.snd).sum / (l.length : ℚ))
    | some (.num _) => some 1
    | none => some 1
  else
    match List.lookup key results with
    | some (.num x) => some x
    | some (.dict _) => none
    | none => some 0

/-- Embeds `_compute_net_score`: the weighted sum over `netWeights` clamped to
[0,1]; 0.0 when the computation raises (modelled by `getMetricValue`
returning `none`). -/
def computeNetScore (results : MetricResults ℚ) : ℚ :=
  match netWeights.mapM (fun p => (getMetricValue results p.1).map (p.2 * ·)) with
  | some terms => max 0 (min 1 terms.sum)
  | none => 0

/-- The canonical shape of a complete `metric_results` mapping: all seven
scalar metrics plus the four-tier size mapping (latency keys omitted; no
weight key reads them). -/
def mkResults (r l dacs : ℚ) (a b c d : ℚ) (bf dq cq pc : ℚ) : MetricResults ℚ :=
  [("ramp_up_time", .num r),
   ("license", .num l),
   ("dataset_and_code_score", .num dacs),
   ("size_score", .dict
     [("raspberry_pi", a), ("jetson_nano", b), ("desktop_pc", c), ("aws_server", d)]),
   ("bus_factor", .num bf),
   ("dataset_quality", .num dq),
   ("code_quality", .num cq),
   ("performance_claims", .num pc)]

/-! ## The metric loop of `score_model` (`scorer.py`, lines 74–84)

`score_model` runs, for each metric in order,
```
try:
    value, latency_ms = metric.compute(repo_info)
    metric_results[metric.name] = value
    metric_results[f"\x7bmetric.name\x7d_latency"] = latency_ms
except Exception:
    LOG.error("Metric %s failed for %s: %s", metric.name, url, e)
    metric_results[metric.name] = 0.0 if metric.name != "size_score" else \x7b\x7d
    metric_results[f"\x7bmetric.name\x7d_latency"] = 0
```
The embedding keeps the two Python-level facts every branch depends on:
what shape `compute` returns (a bare float, a bare dict, or a
`(value, latency)` tuple — tuple unpacking fails on the first two), and
whether the metric object has a `name` attribute (`metric.name` raises
`AttributeError` when it does not, including inside the `except` handler,
where the new exception propagates out of `score_model`). -/

/-- What a metric's `compute` returns at the Python level. -/
inductive MOut where
  | fv (x : ℝ)
  | dv (entries : List (String × ℝ))
  | tup (x : ℝ) (latencyMs : Nat)

/-- A registry entry: the class's `name` attribute (if any) and its
`compute` method. -/
structure MetricEntry where
  pyName : Option String
  compute : Ctx → MOut

/-- A Python error escaping `score_model`. -/
inductive PyError where
  | attributeError
  deriving DecidableEq

/-- The degraded default the `except` handler stores:
`0.0 if metric.name != "size_score" else \x7b\x7d`. -/
def failureDefault (α : Type) [Zero α] (n : String) : MVal α :=
  if n = "size_score" then .dict [] else .num 0

/-- The per-metric loop of `score_model`.  A tuple-shaped `compute` result
together with a present `name` attribute stores value and latency; any other
shape (or a missing `name` on the success path) raises inside the `try`, and
the `except` handler then needs `metric.name` itself: with a `name` it stores
the degraded default, without one the `AttributeError` escapes. -/
noncomputable def runMetricsLoop : List MetricEntry → Ctx → MetricResults ℝ →
    Except PyError (MetricResults ℝ)
  | [], _, acc => .ok acc
  | e :: rest, ctx, acc =>
    match e.compute ctx, e.pyName with
    | .tup v lat, some n =>
      runMetricsLoop rest ctx
        (acc ++ [(n, .num v), (n ++ "_latency", .num (lat : ℝ))])
    | _, _ =>
      match e.pyName with
      | some n =>
        runMetricsLoop rest ctx
          (acc ++ [(n, failureDefault ℝ n), (n ++ "_latency", .num 0)])
      | none => .error .attributeError

/-- The metric registry `score_model` builds, in construction order.  Exactly
one class (`DatasetQualityMetric`) declares a `name` attribute and returns a
`(score, latency)` tuple; the seven `BaseMetric` subclasses return a bare
float (or, for `SizeScoreMetric`, a bare dict) and declare no `name`. -/
noncomputable def scorerRegistry : List MetricEntry :=
  [⟨none, fun c => .fv ((rampUpTimeScore c : ℚ) : ℝ)⟩,
   ⟨none, fun c => .fv ((busFactorScore c : ℚ) : ℝ)⟩,
   ⟨none, fun c => .fv ((performanceClaimsScore c : ℚ) : ℝ)⟩,
   ⟨none, fun c => .fv ((licenseScore c : ℚ) : ℝ)⟩,
   ⟨none, fun c => .dv ((sizeScoreMap c).map (fun p => (p.1, ((p.2 : ℚ) : ℝ))))⟩,
   ⟨none, fun c => .fv ((datasetAndCodeScore c : ℚ) : ℝ)⟩,
   ⟨some "dataset_quality", fun c => .tup (datasetQualityScore c) 0⟩,
   ⟨none, fun c => .fv ((codeQualityScore c : ℚ) : ℝ)⟩]

/-- The metric-computation phase of `score_model`. -/
noncomputable def scoreModelMetricPhase (ctx : Ctx) :
    Except PyError (MetricResults ℝ) :=
  runMetricsLoop scorerRegistry ctx []

/-! ## ScoreRecord serialization
(`ModelScore.to_ndjson_dict` in `src/CSCI461/src/registry/models.py` and
`format_ndjson_line` in `src/CSCI461/src/registry/ndjson_output.py`).

Latencies come from `int(round((t1 - t0) * 1000))` over a monotonic clock and
are therefore non-negative; they are modelled as `Nat`. -/

/-- Round-half-to-even on rationals, the rounding mode of Python's builtin
`round` (the binary-float representation error of CPython floats is outside
this exact-arithmetic model). -/
def roundHalfEven (x : ℚ) : ℤ :=
  let f := ⌊x⌋
  let r := x - (f : ℚ)
  if r < 1/2 then f
  else if 1/2 < r then f + 1
  else if 2 ∣ f then f else f + 1

/-- Model of Python's `round(x, 3)`. -/
def round3 (q : ℚ) : ℚ :=
  (roundHalfEven (q * 1000) : ℚ) / 1000

/-- A JSON value as emitted by `to_ndjson_dict`: a string, a float score, a
latency integer, or the nested size mapping. -/
inductive JVal where
  | jstr (s : String)
  | jnum (q : ℚ)
  | jint (n : Nat)
  | jobj (entries : List (String × ℚ))
  deriving DecidableEq

/-- The `ModelScore` dataclass (models.py): one complete scoring record. -/
structure ModelScore where
  name : String
  category : String
  net_score : ℚ
  net_score_latency : Nat
  ramp_up_time : ℚ
  ramp_up_time_latency : Nat
  bus_factor : ℚ
  bus_factor_latency : Nat
  performance_claims : ℚ
  performance_claims_latency : Nat
  license_score : ℚ
  license_latency : Nat
  size_score : List (String × ℚ)
  size_score_latency : Nat
  dataset_and_code_score : ℚ
  dataset_and_code_score_latency : Nat
  dataset_quality : ℚ
  dataset_quality_latency : Nat
  code_quality : ℚ
  code_quality_latency : Nat

/-- The documented output field names, in the exact order `to_ndjson_dict`
emits them. -/
def docFieldNames : List String :=
  ["name", "category", "net_score", "net_score_latency",
   "ramp_up_time", "ramp_up_time_latency", "bus_factor", "bus_factor_latency",
   "performance_claims", "performance_claims_latency", "license",
   "license_latency", "size_score", "size_score_latency",
   "dataset_and_code_score", "dataset_and_code_score_latency",
   "dataset_quality", "dataset_quality_latency", "code_quality",
   "code_quality_latency"]

/-- Embeds `ModelScore.to_ndjson_dict`: the ordered field list, with every
scalar score passed through `round(·, 3)` and the `size_score` mapping (and
all latencies) passed through unchanged. -/
def toNdjsonDict (m : ModelScore) : List (String × JVal) :=
  [("name", .jstr m.name),
   ("category", .jstr m.category),
   ("net_score", .jnum (round3 m.net_score)),
   ("net_score_latency", .jint m.net_score_latency),
   ("ramp_up_time", .jnum (round3 m.ramp_up_time)),
   ("ramp_up_time_latency", .jint m.ramp_up_time_latency),
   ("bus_factor", .jnum (round3 m.bus_factor)),
   ("bus_factor_latency", .jint m.bus_factor_latency),
   ("performance_claims", .jnum (round3 m.performance_claims)),
   ("performance_claims_latency", .jint m.performance_claims_latency),
   ("license", .jnum (round3 m.license_score)),
   ("license_latency", .jint m.license_latency),
   ("size_score", .jobj m.size_score),
   ("size_score_latency", .jint m.size_score_latency),
   ("dataset_and_code_score", .jnum (round3 m.dataset_and_code_score)),
   ("dataset_and_code_score_latency", .jint m.dataset_and_code_score_latency),
   ("dataset_quality", .jnum (round3 m.dataset_quality)),
   ("dataset_quality_latency", .jint m.dataset_quality_latency),
   ("code_quality", .jnum (round3 m.code_quality)),
   ("code_quality_latency", .jint m.code_quality_latency)]

/-- Strips trailing '0' characters from a digit string. -/
def stripTrailingZeros (s : String) : String :=
  ⟨(s.data.reverse.dropWhile (fun ch => ch = '0')).reverse⟩

/-- Renders a non-negative rational with at most three decimal places the way
CPython's `repr` renders the corresponding float ("1.0", "0.35", "0.333");
rationals outside that grid (never produced by `round(·, 3)`) fall back to a
fraction spelling. -/
def renderQ (q : ℚ) : String :=
  let m := q * 1000
  if m.den = 1 ∧ 0 ≤ m.num then
    let n := m.num.toNat
    let whole := n / 1000
    let frac := n % 1000
    if frac = 0 then toString whole ++ ".0"
    else
      let fracStr :=
        if frac < 10 then "00" ++ toString frac
        else if frac < 100 then "0" ++ toString frac
        else toString frac
      toString whole ++ "." ++ stripTrailingZeros fracStr
  else toString q.num ++ "/" ++ toString q.den

/-- Renders one JSON value compactly (strings are assumed escape-free, as the
repository's names and categories are). -/
def renderJVal : JVal → String
  | .jstr s => "\"" ++ s ++ "\""
  | .jnum q => renderQ q
  | .jint n => toString n
  | .jobj entries =>
    "\x7b" ++
      String.intercalate ","
        (entries.map (fun p => "\"" ++ p.1 ++ "\":" ++ renderQ p.2)) ++
      "\x7d"

/-- Embeds `format_ndjson_line`: `json.dumps(data, separators=(",", ":"))`,
one compact object with no inserted whitespace. -/
def formatNdjsonLine (fields : List (String × JVal)) : String :=
  "\x7b" ++
    String.intercalate ","
      (fields.map (fun p => "\"" ++ p.1 ++ "\":" ++ renderJVal p.2)) ++
    "\x7d"

/-! ## Spec-side predicates and concrete inputs used to settle the claims -/

/-- Modelled from the spec (§4.1 "benchmark keyword", and the stricter
variant in `src/src/registry/metrics/performance_claims.py`): the document
text contains a benchmark keyword. -/
def specBenchmarkKeyword (textLower : String) : Bool :=
  strContains textLower "benchmark" || strContains textLower "leaderboard"
    || strContains textLower "sota"

/-- Modelled from the spec (§4.1 "textually referenced/documented", and the
stricter variant in `src/src/registry/metrics/dataset_and_code_score.py`):
the document text mentions the resource's link. -/
def specTextuallyDocumented (readmeLower link : String) : Bool :=
  strContains readmeLower (lowerStr link)

/-- A context whose README consists of the single word "accuracy". -/
def accuracyOnlyCtx : Ctx := { hf_readme := some "accuracy" }

/-- A context with a benchmark keyword, a metric keyword and a percentage. -/
def benchmarkScenarioCtx : Ctx :=
  { hf_readme := some "Evaluated on the GLUE benchmark: accuracy 92.3%." }

/-- A context holding a dataset link and the example-code flag but an empty
README, so neither resource is textually referenced anywhere. -/
def undocumentedResourcesCtx : Ctx :=
  { hf_readme := some ""
    dataset_link := some "https://huggingface.co/datasets/squad"
    example_code_present := some true }

/-- A context holding only a dataset link, with an empty README, so the
resource is present but not textually referenced anywhere. -/
def datasetOnlyCtx : Ctx :=
  { hf_readme := some ""
    dataset_link := some "https://huggingface.co/datasets/squad" }

/-- A context whose linked dataset reports exactly one download. -/
def oneDownloadCtx : Ctx := { dataset_downloads := some 1 }

/-- A context whose weight files total one byte over the 50 MB
Raspberry-Pi threshold. -/
def justOverPiCtx : Ctx := { weights_total_bytes := some (50 * 1024 * 1024 + 1) }

/-- The raspberry_pi tier value `sizeScoreMap` computes for
`justOverPiCtx`: `1 - 1/524288000`, not a three-decimal value. -/
def justOverPiValue : ℚ := 524287999 / 524288000

/-- The complete `metric_results` mapping with every scalar at full score and
all four tiers at 1.0. -/
def allOnesResults : MetricResults ℚ := mkResults 1 1 1 1 1 1 1 1 1 1 1

/-- A concrete `ModelScore` used to exhibit the serialized line. -/
def demoRecord : ModelScore :=
  { name := "demo-model"
    category := "MODEL"
    net_score := 3/4
    net_score_latency := 12
    ramp_up_time := 1/2
    ramp_up_time_latency := 3
    bus_factor := 1/10
    bus_factor_latency := 4
    performance_claims := 1
    performance_claims_latency := 5
    license_score := 1
    license_latency := 6
    size_score := [("raspberry_pi", 0), ("jetson_nano", 0),
                   ("desktop_pc", 1), ("aws_server", 1)]
    size_score_latency := 7
    dataset_and_code_score := 1/2
    dataset_and_code_score_latency := 8
    dataset_quality := 1/5
    dataset_quality_latency := 9
    code_quality := 7/10
    code_quality_latency := 10 }

/-- A `ModelScore` whose size mapping holds the value the size metric
actually computes for `justOverPiCtx` (an unrounded rational). -/
def unroundedSizeRecord : ModelScore :=
  { demoRecord with size_score := sizeScoreMap justOverPiCtx }

/-! ## Helper lemmas -/

lemma rampUp_bounds (ctx : Ctx) :
    0 ≤ rampUpTimeScore ctx ∧ rampUpTimeScore ctx ≤ 1 := by
  simp only [rampUpTimeScore]
  have hw : (0 : ℚ) ≤ (wordCount (ctx.hf_readme.getD "") : ℚ) / 300 := by positivity
  have h1 : (0 : ℚ) ≤ min 1 ((wordCount (ctx.hf_readme.getD "") : ℚ) / 300) :=
    le_min (by norm_num) hw
  have h2 : min 1 ((wordCount (ctx.hf_readme.getD "") : ℚ) / 300) ≤ 1 :=
    min_le_left _ _
  split_ifs <;> constructor <;> linarith

lemma busFactor_cases (ctx : Ctx) :
    (ctx.git_contributors.getD 1 ≤ 1 ∧ busFactorScore ctx = 1/10) ∨
      (2 ≤ ctx.git_contributors.getD 1 ∧
        busFactorScore ctx = min 1 ((ctx.git_contributors.getD 1 : ℚ) / 5)) := by
  simp only [busFactorScore]
  split_ifs with h
  · exact Or.inl ⟨h, rfl⟩
  · exact Or.inr ⟨by omega, rfl⟩

lemma busFactor_bounds (ctx : Ctx) :
    1/10 ≤ busFactorScore ctx ∧ busFactorScore ctx ≤ 1 := by
  rcases busFactor_cases ctx with ⟨_, h⟩ | ⟨hc, h⟩
  · rw [h]; norm_num
  · rw [h]
    have hc' : (2 : ℚ) ≤ (ctx.git_contributors.getD 1 : ℚ) := by exact_mod_cast hc
    exact ⟨le_min (by norm_num) (by linarith), min_le_left _ _⟩

lemma perf_cases (ctx : Ctx) :
    performanceClaimsScore ctx = 0 ∨ performanceClaimsScore ctx = 1 := by
  simp only [performanceClaimsScore]
  split_ifs <;> simp

lemma license_cases (ctx : Ctx) :
    licenseScore ctx = 0 ∨ licenseScore ctx = 1/5 ∨ licenseScore ctx = 1/2 ∨
      licenseScore ctx = 1 := by
  simp only [licenseScore]
  split_ifs <;> norm_num

lemma dacs_cases (ctx : Ctx) :
    datasetAndCodeScore ctx = 0 ∨ datasetAndCodeScore ctx = 1/2 ∨
      datasetAndCodeScore ctx = 1 := by
  simp only [datasetAndCodeScore]
  split_ifs <;> norm_num

lemma codeQuality_bounds (ctx : Ctx) :
    0 ≤ codeQualityScore ctx ∧ codeQualityScore ctx ≤ 1 := by
  simp only [codeQualityScore]
  refine ⟨le_min (by norm_num) ?_, min_le_left _ _⟩
  split_ifs <;> norm_num

lemma dq_bounds (ctx : Ctx) :
    0 ≤ datasetQualityScore ctx ∧ datasetQualityScore ctx ≤ 1 := by
  simp only [datasetQualityScore]
  exact ⟨le_max_left _ _, max_le (by norm_num) (min_le_left _ _)⟩

lemma size_entry_bounds (ctx : Ctx) :
    ∀ p ∈ sizeScoreMap ctx, 0 ≤ p.2 ∧ p.2 ≤ 1 := by
  intro p hp
  simp only [sizeScoreMap] at hp
  cases hctx : ctx.weights_total_bytes with
  | none =>
    rw [hctx] at hp
    simp only [defaultSizeMap, List.mem_cons, List.not_mem_nil, or_false] at hp
    rcases hp with h | h | h | h <;> subst h <;> norm_num
  | some total =>
    rw [hctx] at hp
    simp only [List.mem_map] at hp
    obtain ⟨q, _, rfl⟩ := hp
    dsimp only
    split_ifs
    · norm_num
    · exact ⟨le_min (by norm_num) (le_max_left _ _), min_le_left _ _⟩

/-! ## Claim theorems -/

/-- Claim C7: for every context, each metric's scalar output lies in [0,1]
(in particular ramp_up_time and code_quality), and each of the four entries
of the size_score mapping lies in [0,1], whatever the presence or quality of
the upstream data. -/
theorem every_metric_score_in_unit_interval : ∀ ctx : Ctx,
    (0 ≤ rampUpTimeScore ctx ∧ rampUpTimeScore ctx ≤ 1) ∧
    (0 ≤ busFactorScore ctx ∧ busFactorScore ctx ≤ 1) ∧
    (0 ≤ performanceClaimsScore ctx ∧ performanceClaimsScore ctx ≤ 1) ∧
    (0 ≤ licenseScore ctx ∧ licenseScore ctx ≤ 1) ∧
    (0 ≤ datasetAndCodeScore ctx ∧ datasetAndCodeScore ctx ≤ 1) ∧
    (0 ≤ datasetQualityScore ctx ∧ datasetQualityScore ctx ≤ 1) ∧
    (0 ≤ codeQualityScore ctx ∧ codeQualityScore ctx ≤ 1) ∧
    (∀ p ∈ sizeScoreMap ctx, 0 ≤ p.2 ∧ p.2 ≤ 1) := by
  intro ctx
  refine ⟨rampUp_bounds ctx, ?_, ?_, ?_, ?_, dq_bounds ctx, codeQuality_bounds ctx,
    size_entry_bounds ctx⟩
  · obtain ⟨h1, h2⟩ := busFactor_bounds ctx
    exact ⟨by linarith, h2⟩
  · rcases perf_cases ctx with h | h <;> rw [h] <;> norm_num
  · rcases license_cases ctx with h | h | h | h <;> rw [h] <;> norm_num
  · rcases dacs_cases ctx with h | h | h <;> rw [h] <;> norm_num

/-- Witness for C7's size-entry conjunct at a concrete context and entry. -/
theorem every_metric_score_in_unit_interval_witness :
    ("desktop_pc", (1 : ℚ)) ∈ sizeScoreMap emptyCtx ∧
      0 ≤ (1 : ℚ) ∧ (1 : ℚ) ≤ 1 := by
  have hm : ("desktop_pc", (1 : ℚ)) ∈ sizeScoreMap emptyCtx := by
    simp [sizeScoreMap, emptyCtx, defaultSizeMap]
  exact ⟨hm, (every_metric_score_in_unit_interval emptyCtx).2.2.2.2.2.2.2
    ("desktop_pc", (1 : ℚ)) hm⟩

/-- Claim C8: bus_factor is monotonically non-decreasing in the contributor
count, always at least 0.1, equal to 0.1 for every count ≤ 1, and ramps
linearly (c/5) up to 1.0, reached at 5 or more contributors. -/
theorem busFactor_monotone_floor_ramp :
    (∀ c c' : Int, c ≤ c' →
      busFactorScore { git_contributors := some c } ≤
        busFactorScore { git_contributors := some c' }) ∧
    (∀ ctx : Ctx, 1/10 ≤ busFactorScore ctx) ∧
    (∀ c : Int, c ≤ 1 → busFactorScore { git_contributors := some c } = 1/10) ∧
    (∀ c : Int, 2 ≤ c → c ≤ 5 →
      busFactorScore { git_contributors := some c } = (c : ℚ) / 5) ∧
    (∀ c : Int, 5 ≤ c → busFactorScore { git_contributors := some c } = 1) := by
  have hgetD : ∀ c : Int, (({ git_contributors := some c } : Ctx).git_contributors.getD 1) = c :=
    fun _ => rfl
  refine ⟨?_, fun ctx => (busFactor_bounds ctx).1, ?_, ?_, ?_⟩
  · intro c c' hcc
    rcases busFactor_cases { git_contributors := some c } with ⟨hc, h⟩ | ⟨hc, h⟩
    · rcases busFactor_cases { git_contributors := some c' } with ⟨hc', h'⟩ | ⟨hc', h'⟩
      · rw [h, h']
      · simp only [hgetD] at hc' h'
        rw [h, h']
        have hq : (2 : ℚ) ≤ (c' : ℚ) := by exact_mod_cast hc'
        exact le_min (by norm_num) (by linarith)
    · rcases busFactor_cases { git_contributors := some c' } with ⟨hc', h'⟩ | ⟨hc', h'⟩
      · simp only [hgetD] at hc hc'
        omega
      · simp only [hgetD] at hc hc' h h'
        rw [h, h']
        have hq : (c : ℚ) ≤ (c' : ℚ) := by exact_mod_cast hcc
        exact min_le_min le_rfl (by linarith)
  · intro c hc
    simp only [busFactorScore, hgetD]
    rw [if_pos hc]
  · intro c h2 h5
    have h1 : ¬ (c ≤ 1) := by omega
    have hq : (c : ℚ) ≤ 5 := by exact_mod_cast h5
    simp only [busFactorScore, hgetD]
    rw [if_neg h1, min_eq_right (by linarith)]
  · intro c h5
    have h1 : ¬ (c ≤ 1) := by omega
    have hq : (5 : ℚ) ≤ (c : ℚ) := by exact_mod_cast h5
    simp only [busFactorScore, hgetD]
    rw [if_neg h1, min_eq_left (by linarith)]

/-- Witness for C8 at concrete contributor counts. -/
theorem busFactor_monotone_floor_ramp_witness :
    busFactorScore { git_contributors := some 2 } ≤
        busFactorScore { git_contributors := some 7 } ∧
      busFactorScore { git_contributors := some 0 } = 1/10 ∧
      busFactorScore { git_contributors := some 3 } = 3/5 ∧
      busFactorScore { git_contributors := some 9 } = 1 := by
  refine ⟨busFactor_monotone_floor_ramp.1 2 7 (by decide),
    busFactor_monotone_floor_ramp.2.2.1 0 (by decide), ?_,
    busFactor_monotone_floor_ramp.2.2.2.2 9 (by decide)⟩
  have h := busFactor_monotone_floor_ramp.2.2.2.1 3 (by decide) (by decide)
  rw [h]
  norm_num

/-- Claim C4 counterexample: a README consisting of the single word
"accuracy" gets full credit (1.0) although it contains no benchmark keyword
and no digit at all, so full credit does not require a benchmark keyword, a
metric keyword and a numeric pattern to co-occur. -/
theorem performanceClaims_full_credit_without_benchmark_keyword :
    performanceClaimsScore accuracyOnlyCtx = 1 ∧
      specBenchmarkKeyword (lowerStr "accuracy") = false ∧
      ("accuracy".data.any (fun ch => ch.isDigit)) = false := by
  refine ⟨by decide, by decide, by decide⟩

/-- Claim C4 (amended): performance_claims returns only 0.0 or 1.0, with 1.0
exactly when the lowercased README contains "benchmark", "accuracy" or
"eval"; in particular the benchmark/accuracy/92.3% scenario README returns
the top tier 1.0. -/
theorem performanceClaims_any_keyword_rule :
    (∀ ctx : Ctx, performanceClaimsScore ctx = 0 ∨ performanceClaimsScore ctx = 1) ∧
    (∀ ctx : Ctx, (performanceClaimsScore ctx = 1 ↔
      (strContains (lowerStr (ctx.hf_readme.getD "")) "benchmark"
        || strContains (lowerStr (ctx.hf_readme.getD "")) "accuracy"
        || strContains (lowerStr (ctx.hf_readme.getD "")) "eval") = true)) ∧
    performanceClaimsScore benchmarkScenarioCtx = 1 := by
  refine ⟨perf_cases, ?_, by decide⟩
  intro ctx
  simp only [performanceClaimsScore]
  split_ifs with h
  · simp [h]
  · simp only [h]
    norm_num

/-- Claim C9 counterexample: with an empty README — so no resource is
textually referenced in the document text — a context holding both a dataset
link and the example-code flag still scores full credit (1.0), and a context
holding only the dataset link still scores half credit (0.5); neither credit
tier requires textual referencing. -/
theorem datasetAndCode_full_credit_without_textual_reference :
    datasetAndCodeScore undocumentedResourcesCtx = 1 ∧
      datasetAndCodeScore datasetOnlyCtx = 1/2 ∧
      specTextuallyDocumented (lowerStr "")
        "https://huggingface.co/datasets/squad" = false := by
  refine ⟨by decide, by rfl, by decide⟩

/-- Claim C9 (amended): dataset_and_code_score depends only on presence —
it returns 1.0 exactly when both the dataset link and the example-code flag
are truthy, 0.5 exactly when exactly one of the two is truthy, and 0.0
exactly when neither is, with no textual-reference requirement anywhere;
its reachable outputs are exactly 0.0, 0.5 and 1.0, each attained. -/
theorem datasetAndCode_presence_rule :
    (∀ ctx : Ctx, datasetAndCodeScore ctx = 0 ∨ datasetAndCodeScore ctx = 1/2 ∨
      datasetAndCodeScore ctx = 1) ∧
    (∀ ctx : Ctx, (datasetAndCodeScore ctx = 1 ↔
      ((!(ctx.dataset_link.getD "" == "")) &&
        ctx.example_code_present.getD false) = true)) ∧
    (∀ ctx : Ctx, (datasetAndCodeScore ctx = 1/2 ↔
      (((!(ctx.dataset_link.getD "" == "")) ||
          ctx.example_code_present.getD false) &&
        !((!(ctx.dataset_link.getD "" == "")) &&
          ctx.example_code_present.getD false)) = true)) ∧
    (∀ ctx : Ctx, (datasetAndCodeScore ctx = 0 ↔
      ((!(ctx.dataset_link.getD "" == "")) ||
        ctx.example_code_present.getD false) = false)) ∧
    datasetAndCodeScore emptyCtx = 0 ∧
    datasetAndCodeScore datasetOnlyCtx = 1/2 ∧
    datasetAndCodeScore undocumentedResourcesCtx = 1 := by
  refine ⟨dacs_cases, ?_, ?_, ?_, by rfl, by rfl, by rfl⟩ <;>
    · intro ctx
      simp only [datasetAndCodeScore]
      cases hd : (!(ctx.dataset_link.getD "" == "")) <;>
        cases hc : ctx.example_code_present.getD false <;>
        simp [hd, hc]

/-- Claim C2 counterexample: the value the scorer substitutes for size_score
when the metric's evaluation fails is the empty mapping, whose key set is
not the four tier names. -/
theorem sizeScore_failure_substitution_not_four_tiers :
    mvalKeys (failureDefault ℚ "size_score") = [] ∧
      mvalKeys (failureDefault ℚ "size_score") ≠ tierNames := by
  refine ⟨by decide, by decide⟩

/-- Claim C2 (amended): SizeScoreMetric.compute always returns a mapping
whose key list is exactly the four tier names, and the documented default
mapping when weights_total_bytes is absent; but on metric failure the scorer
stores the empty mapping instead. -/
theorem sizeScore_four_tiers_and_default :
    (∀ ctx : Ctx, (sizeScoreMap ctx).map Prod.fst = tierNames) ∧
    (∀ ctx : Ctx, ctx.weights_total_bytes = none → sizeScoreMap ctx = defaultSizeMap) ∧
    failureDefault ℚ "size_score" = .dict [] := by
  refine ⟨?_, ?_, by decide⟩
  · intro ctx
    cases hctx : ctx.weights_total_bytes <;>
      simp [sizeScoreMap, hctx, sizeThresholds, tierNames, defaultSizeMap]
  · intro ctx h
    simp [sizeScoreMap, h]

/-- Witness for C2's default-mapping conjunct at the empty context. -/
theorem sizeScore_four_tiers_and_default_witness :
    sizeScoreMap emptyCtx = defaultSizeMap :=
  sizeScore_four_tiers_and_default.2.1 emptyCtx rfl

/-- Claim C10: whenever the stored size_score is absent, empty, or not a
mapping, the aggregator substitutes the scalar 1.0 for the size term, so a
results mapping with no size data at all still earns the full 0.10 weight. -/
theorem missing_size_defaults_to_full_credit :
    (∀ results : MetricResults ℚ,
      (List.lookup "size_score" results = none ∨
        List.lookup "size_score" results = some (.dict []) ∨
        (∃ x : ℚ, List.lookup "size_score" results = some (.num x))) →
      getMetricValue results "size_score" = some 1) ∧
    computeNetScore [] = 1/10 := by
  constructor
  · intro results h
    simp only [getMetricValue, if_pos rfl]
    rcases h with h | h | ⟨x, h⟩ <;> rw [h] <;> simp
  · simp [computeNetScore, netWeights, getMetricValue, List.mapM.loop]
    norm_num

/-- Witness for C10 at the empty results mapping. -/
theorem missing_size_defaults_to_full_credit_witness :
    getMetricValue [] "size_score" = some 1 :=
  missing_size_defaults_to_full_credit.1 [] (Or.inl rfl)

/-- Claim C1 (code bug): for every context — the well-formed ones included —
the metric loop of score_model raises AttributeError past its boundary
instead of returning a complete record: the first metric's compute returns a
bare float, tuple unpacking fails, and the except handler's `metric.name`
lookup fails because the class declares no name attribute. -/
theorem scoreModel_metric_loop_raises :
    ∀ ctx : Ctx, scoreModelMetricPhase ctx = .error .attributeError :=
  fun _ => rfl

/-- Claim C5 counterexample: with exactly one dataset download the score is
log1p(1)/10 = log(2)/10 ≈ 0.069, strictly below the claimed floor 0.2, so a
positive download count does not keep the score at or above the floor. -/
theorem datasetQuality_below_floor_at_one_download :
    datasetQualityScore oneDownloadCtx < 1/5 := by
  have hlog : Real.log 2 < 0.6931471808 := Real.log_two_lt_d9
  have hnn : (0 : ℝ) ≤ Real.log 2 := Real.log_nonneg (by norm_num)
  have h1 : Real.log 2 / 10 ≤ 1 := by linarith
  have h0 : (0 : ℝ) ≤ Real.log 2 / 10 := by linarith
  have hd : ((oneDownloadCtx.dataset_downloads.getD 0 : ℤ) : ℝ) = 1 := by
    norm_num [oneDownloadCtx]
  simp only [datasetQualityScore, hd]
  rw [if_neg (by norm_num [oneDownloadCtx])]
  norm_num
  linarith

/-- Claim C5 (amended): dataset_quality is clamped to [0,1]; a download
count ≤ 0 (absent included) yields exactly the floor 0.2 without raising;
a positive count yields min(1, log1p(downloads)/10), which can fall below
the floor. -/
theorem datasetQuality_floor_and_bounds :
    (∀ ctx : Ctx, 0 ≤ datasetQualityScore ctx ∧ datasetQualityScore ctx ≤ 1) ∧
    (∀ ctx : Ctx, ctx.dataset_downloads.getD 0 ≤ 0 → datasetQualityScore ctx = 1/5) ∧
    (∀ ctx : Ctx, 0 < ctx.dataset_downloads.getD 0 →
      datasetQualityScore ctx =
        min 1 (Real.log (1 + (ctx.dataset_downloads.getD 0 : ℝ)) / 10)) := by
  refine ⟨dq_bounds, ?_, ?_⟩
  · intro ctx h
    simp only [datasetQualityScore]
    rw [if_pos h]
    norm_num
  · intro ctx h
    simp only [datasetQualityScore]
    rw [if_neg (not_le.mpr h)]
    have hd1 : (1 : ℝ) ≤ (ctx.dataset_downloads.getD 0 : ℝ) := by exact_mod_cast h
    have hlogpos : 0 ≤ Real.log (1 + (ctx.dataset_downloads.getD 0 : ℝ)) :=
      Real.log_nonneg (by linarith)
    rw [← min_assoc, min_self,
      max_eq_right (le_min (by norm_num) (by positivity))]

/-- Witness for C5's floor and positive branches at concrete contexts. -/
theorem datasetQuality_floor_and_bounds_witness :
    datasetQualityScore emptyCtx = 1/5 ∧
      datasetQualityScore { dataset_downloads := some 3 } =
        min 1 (Real.log
          (1 + ((({ dataset_downloads := some 3 } : Ctx).dataset_downloads.getD 0 : ℤ) : ℝ))
          / 10) :=
  ⟨datasetQuality_floor_and_bounds.2.1 emptyCtx (by decide),
    datasetQuality_floor_and_bounds.2.2 { dataset_downloads := some 3 } (by decide)⟩

/-- Claim C3: on a complete results mapping whose scalars and tier values
lie in [0,1], the net score equals the fixed-weight sum (0.20 ramp_up_time,
0.20 license, 0.15 dataset_and_code_score, 0.10 size mean, 0.10 bus_factor,
0.10 dataset_quality, 0.10 code_quality, 0.05 performance_claims), with the
size scalar the arithmetic mean of the four tiers; the clamp to [0,1] is the
identity there, the result lies in [0,1], and the weights sum to 1. -/
theorem netScore_weighted_formula (r l dacs a b c d bf dq cq pc : ℚ)
    (hr : 0 ≤ r ∧ r ≤ 1) (hl : 0 ≤ l ∧ l ≤ 1) (hdacs : 0 ≤ dacs ∧ dacs ≤ 1)
    (ha : 0 ≤ a ∧ a ≤ 1) (hb : 0 ≤ b ∧ b ≤ 1) (hc : 0 ≤ c ∧ c ≤ 1)
    (hd : 0 ≤ d ∧ d ≤ 1) (hbf : 0 ≤ bf ∧ bf ≤ 1) (hdq : 0 ≤ dq ∧ dq ≤ 1)
    (hcq : 0 ≤ cq ∧ cq ≤ 1) (hpc : 0 ≤ pc ∧ pc ≤ 1) :
    computeNetScore (mkResults r l dacs a b c d bf dq cq pc) =
        2/10 * r + 2/10 * l + 15/100 * dacs + 1/10 * ((a + b + c + d) / 4) +
          1/10 * bf + 1/10 * dq + 1/10 * cq + 5/100 * pc ∧
      0 ≤ computeNetScore (mkResults r l dacs a b c d bf dq cq pc) ∧
      computeNetScore (mkResults r l dacs a b c d bf dq cq pc) ≤ 1 ∧
      (netWeights.map Prod.snd).sum = 1 := by
  obtain ⟨hr0, hr1⟩ := hr
  obtain ⟨hl0, hl1⟩ := hl
  obtain ⟨hdacs0, hdacs1⟩ := hdacs
  obtain ⟨ha0, ha1⟩ := ha
  obtain ⟨hb0, hb1⟩ := hb
  obtain ⟨hc0, hc1⟩ := hc
  obtain ⟨hd0, hd1⟩ := hd
  obtain ⟨hbf0, hbf1⟩ := hbf
  obtain ⟨hdq0, hdq1⟩ := hdq
  obtain ⟨hcq0, hcq1⟩ := hcq
  obtain ⟨hpc0, hpc1⟩ := hpc
  have hred : computeNetScore (mkResults r l dacs a b c d bf dq cq pc) =
      max 0 (min 1 (2/10 * r +
        (2/10 * l +
          (15/100 * dacs +
            (1/10 * ((a + (b + (c + d))) / 4) +
              (1/10 * bf + (1/10 * dq + (1/10 * cq + 5/100 * pc)))))))) := by
    simp [computeNetScore, netWeights, getMetricValue, mkResults, List.mapM.loop,
      List.lookup]
  have hS0 : 0 ≤ 2/10 * r +
      (2/10 * l +
        (15/100 * dacs +
          (1/10 * ((a + (b + (c + d))) / 4) +
            (1/10 * bf + (1/10 * dq + (1/10 * cq + 5/100 * pc)))))) := by
    nlinarith
  have hS1 : 2/10 * r +
      (2/10 * l +
        (15/100 * dacs +
          (1/10 * ((a + (b + (c + d))) / 4) +
            (1/10 * bf + (1/10 * dq + (1/10 * cq + 5/100 * pc)))))) ≤ 1 := by
    nlinarith
  have hplain : computeNetScore (mkResults r l dacs a b c d bf dq cq pc) =
      2/10 * r +
        (2/10 * l +
          (15/100 * dacs +
            (1/10 * ((a + (b + (c + d))) / 4) +
              (1/10 * bf + (1/10 * dq + (1/10 * cq + 5/100 * pc)))))) := by
    rw [hred, min_eq_right hS1, max_eq_right hS0]
  refine ⟨?_, ?_, ?_, by norm_num [netWeights]⟩
  · rw [hplain]; ring
  · rw [hplain]; linarith
  · rw [hplain]; linarith

/-- Witness for C3 at the all-ones results mapping: the weighted sum of full
scores is exactly 1. -/
theorem netScore_weighted_formula_witness :
    computeNetScore allOnesResults =
        2/10 * 1 + 2/10 * 1 + 15/100 * 1 + 1/10 * ((1 + 1 + 1 + 1) / 4) +
          1/10 * 1 + 1/10 * 1 + 1/10 * 1 + 5/100 * 1 ∧
      0 ≤ computeNetScore allOnesResults ∧ computeNetScore allOnesResults ≤ 1 := by
  have h := netScore_weighted_formula 1 1 1 1 1 1 1 1 1 1 1
    (by norm_num) (by norm_num) (by norm_num) (by norm_num) (by norm_num)
    (by norm_num) (by norm_num) (by norm_num) (by norm_num) (by norm_num)
    (by norm_num)
  exact ⟨h.1, h.2.1, h.2.2.1⟩

/-- Claim C6 (amended): serialization emits exactly the documented field
names in the documented order, rounds every scalar score to 3 decimal
places, emits latencies as (non-negative) integers, and produces one compact
line; the size_score mapping, however, is emitted exactly as stored in the
record, with no rounding and no key check. -/
theorem ndjson_fields_order_and_rounding :
    (∀ m : ModelScore, (toNdjsonDict m).map Prod.fst = docFieldNames) ∧
    (∀ m : ModelScore,
      List.lookup "net_score" (toNdjsonDict m) = some (.jnum (round3 m.net_score))) ∧
    (∀ m : ModelScore,
      List.lookup "net_score_latency" (toNdjsonDict m) =
        some (.jint m.net_score_latency)) ∧
    (∀ m : ModelScore,
      List.lookup "size_score" (toNdjsonDict m) = some (.jobj m.size_score)) ∧
    formatNdjsonLine (toNdjsonDict demoRecord) =
      "\x7b\"name\":\"demo-model\",\"category\":\"MODEL\",\"net_score\":0.75,\"net_score_latency\":12,\"ramp_up_time\":0.5,\"ramp_up_time_latency\":3,\"bus_factor\":0.1,\"bus_factor_latency\":4,\"performance_claims\":1.0,\"performance_claims_latency\":5,\"license\":1.0,\"license_latency\":6,\"size_score\":\x7b\"raspberry_pi\":0.0,\"jetson_nano\":0.0,\"desktop_pc\":1.0,\"aws_server\":1.0\x7d,\"size_score_latency\":7,\"dataset_and_code_score\":0.5,\"dataset_and_code_score_latency\":8,\"dataset_quality\":0.2,\"dataset_quality_latency\":9,\"code_quality\":0.7,\"code_quality_latency\":10\x7d" := by
  have hnm : ∀ (q : ℚ) (n : ℕ), q * 1000 = (n : ℚ) → renderQ q =
      (if n % 1000 = 0 then toString (n / 1000) ++ ".0"
       else toString (n / 1000) ++ "." ++ stripTrailingZeros
         (if n % 1000 < 10 then "00" ++ toString (n % 1000)
          else if n % 1000 < 100 then "0" ++ toString (n % 1000)
          else toString (n % 1000))) := by
    intro q n h
    simp only [renderQ, h, Rat.den_natCast, Rat.num_natCast, Int.toNat_natCast]
    norm_num
  refine ⟨fun m => rfl, fun m => rfl, fun m => rfl, fun m => rfl, ?_⟩
  have e1 : renderQ (round3 (3/4)) = "0.75" := by
    rw [show round3 (3/4 : ℚ) = 3/4 by norm_num [round3, roundHalfEven],
      hnm (3/4) 750 (by norm_num)]
    rfl
  have e2 : renderQ (round3 (1/2)) = "0.5" := by
    rw [show round3 (1/2 : ℚ) = 1/2 by norm_num [round3, roundHalfEven],
      hnm (1/2) 500 (by norm_num)]
    rfl
  have e3 : renderQ (round3 (1/10)) = "0.1" := by
    rw [show round3 (1/10 : ℚ) = 1/10 by norm_num [round3, roundHalfEven],
      hnm (1/10) 100 (by norm_num)]
    rfl
  have e4 : renderQ (round3 1) = "1.0" := by
    rw [show round3 (1 : ℚ) = 1 by norm_num [round3, roundHalfEven],
      hnm 1 1000 (by norm_num)]
    rfl
  have e5 : renderQ (round3 (1/5)) = "0.2" := by
    rw [show round3 (1/5 : ℚ) = 1/5 by norm_num [round3, roundHalfEven],
      hnm (1/5) 200 (by norm_num)]
    rfl
  have e6 : renderQ (round3 (7/10)) = "0.7" := by
    rw [show round3 (7/10 : ℚ) = 7/10 by norm_num [round3, roundHalfEven],
      hnm (7/10) 700 (by norm_num)]
    rfl
  have e7 : renderQ 0 = "0.0" := by
    rw [hnm 0 0 (by norm_num)]
    rfl
  have e8 : renderQ 1 = "1.0" := by
    rw [hnm 1 1000 (by norm_num)]
    rfl
  simp only [formatNdjsonLine, toNdjsonDict, demoRecord, renderJVal, List.map,
    String.intercalate, e1, e2, e3, e4, e5, e6, e7, e8]
  set_option maxRecDepth 4000 in rfl

/-- Claim C6 counterexample: a record holding the size mapping the size
metric computes for a weight total one byte over the Raspberry-Pi threshold
serializes that mapping unchanged, and its raspberry_pi value is not equal
to its own 3-decimal rounding — so size_score values are not rounded to 3
decimal places. -/
theorem ndjson_size_values_not_rounded :
    List.lookup "size_score" (toNdjsonDict unroundedSizeRecord) =
        some (.jobj (sizeScoreMap justOverPiCtx)) ∧
      List.lookup "raspberry_pi" (sizeScoreMap justOverPiCtx) =
        some justOverPiValue ∧
      round3 justOverPiValue ≠ justOverPiValue := by
  refine ⟨rfl, ?_, ?_⟩
  · norm_num [sizeScoreMap, justOverPiCtx, sizeThresholds, justOverPiValue,
      List.lookup]
  · norm_num [round3, roundHalfEven, justOverPiValue]

end Spec2Proof
